import Mathlib

/-!
Verification of `docsai` (src/docsai/main.py and src/docsai/doc_main.py),
a CLI that sends source files to a generative model and writes back the
documented version.

Shallow embedding conventions:
* Python values that can appear in a parsed TOML document are modelled by
  `PyVal` (strings, booleans, nested dicts).  A parsed TOML file
  (`toml.load` result) is a `Toml`, an insertion-ordered association list,
  exactly the observable behaviour of a Python `dict`.
* Python exceptions that the analysed code can raise or catch are modelled
  by `PyErr`; fallible steps return `Except PyErr _`.
* Filesystem paths are modelled by `FPath` (parent directory components
  plus a final name).  Paths in the model are taken to be absolute and
  symlink-free, so `Path.resolve` is the identity on them.
* The filesystem is a list of (path, content) pairs; a write prepends and
  a read takes the first match, so a write shadows older entries.
* The external model client is a parameter `gen : String → String` mapping
  the file content sent to the service to the response text.
-/

namespace Docsai

/-- A Python value as produced by `toml.load`: a string, a boolean, or a
nested dict (TOML table). -/
inductive PyVal where
  | str (s : String)
  | bool (b : Bool)
  | dict (entries : List (String × PyVal))

/-- A parsed TOML document: the top-level Python dict, as an
insertion-ordered association list. -/
abbrev Toml : Type := List (String × PyVal)

/-- First-match lookup in a Python dict, i.e. `d[k]` when it succeeds. -/
def lookupKey : List (String × PyVal) → String → Option PyVal
  | [], _ => none
  | (k2, v) :: rest, k => if k2 = k then some v else lookupKey rest k

/-- Python `"k" in d`. -/
def hasKey (d : List (String × PyVal)) (k : String) : Bool :=
  (lookupKey d k).isSome

/-- Python dict assignment `d[k] = v`: replaces the value in place if the
key is present, otherwise appends the new key at the end (insertion
order). -/
def setKey : List (String × PyVal) → String → PyVal → List (String × PyVal)
  | [], k, v => [(k, v)]
  | (k2, w) :: rest, k, v =>
    if k2 = k then (k, v) :: rest else (k2, w) :: setKey rest k v

/-- The Python exceptions relevant to this program. -/
inductive PyErr where
  | keyError
  | typeError
deriving DecidableEq

/-- Python subscript `v[k]` on an arbitrary value: succeeds on a dict with
the key present, raises `KeyError` on a dict without it, and raises
`TypeError` when `v` is not a dict (e.g. string subscripts by string). -/
def subscript (v : PyVal) (k : String) : Except PyErr PyVal :=
  match v with
  | .dict es =>
    match lookupKey es k with
    | some w => .ok w
    | none => .error .keyError
  | _ => .error .typeError

/-- `load_config` (main.py lines 108-126) applied to the parsed content of
the config file: evaluates `config_file["API"]["API_KEY"]`, catching only
`KeyError` (which yields the sentinel `False`); any other exception
propagates. -/
def load_config (config_file : Toml) : Except PyErr PyVal :=
  match subscript (.dict config_file) "API" with
  | .error .keyError => .ok (.bool false)
  | .error e => .error e
  | .ok a =>
    match subscript a "API_KEY" with
    | .error .keyError => .ok (.bool false)
    | .error e => .error e
    | .ok v => .ok v

/-! ### Text processing: `str.splitlines`, slicing, `"\n".join` -/

/-- The line-boundary characters recognised by Python `str.splitlines`. -/
def isLineBreak (c : Char) : Bool :=
  c == '\n' || c == '\r' || c == '\x0B' || c == '\x0C' ||
  c == '\x1C' || c == '\x1D' || c == '\x1E' || c == '\x85' ||
  c == '\u2028' || c == '\u2029'

/-- Worker for `splitlines`: `acc` holds the current line's characters in
reverse.  A line break always emits the current line (a `"\r\n"` pair
counts as one break); at the end of input a non-empty current line is
emitted, but a trailing break adds no empty line. -/
def splitlinesAux : List Char → List Char → List String
  | [], acc => if acc.isEmpty then [] else [String.mk acc.reverse]
  | '\r' :: '\n' :: cs, acc => String.mk acc.reverse :: splitlinesAux cs []
  | c :: cs, acc =>
    if isLineBreak c then String.mk acc.reverse :: splitlinesAux cs []
    else splitlinesAux cs (c :: acc)

/-- Python `text.splitlines()`. -/
def splitlines (text : String) : List String :=
  splitlinesAux text.data []

/-- Python list slice `l[1:-1]`: everything but the first and last
elements; total, never raises, empty on lists of length below 2. -/
def pySlice1m1 (l : List α) : List α :=
  (l.drop 1).dropLast

/-- Python `sep.join(parts)`. -/
def pyJoin (sep : String) : List String → String
  | [] => ""
  | [s] => s
  | s :: rest => s ++ sep ++ pyJoin sep rest

/-- The response post-processing of `handling_files` (main.py lines
157-158): `"\n".join(text.splitlines()[1:-1])`. -/
def stripFence (text : String) : String :=
  pyJoin "\n" (pySlice1m1 (splitlines text))

/-! ### Paths and the filesystem -/

/-- A filesystem path: the components of the parent directory plus the
final name (`pathlib.Path.name`). -/
structure FPath where
  dirs : List String
  name : String
deriving DecidableEq

/-- `pathlib.Path.resolve()`.  Paths in this model are absolute and
symlink-free, on which `resolve` acts as the identity. -/
def FPath.resolve (p : FPath) : FPath := p

/-- `pathlib.Path.with_name(n)`: same parent, new final component. -/
def FPath.with_name (p : FPath) (n : String) : FPath :=
  ⟨p.dirs, n⟩

/-- Rendering of a path in user-visible messages (`f"... {path} ..."`). -/
def FPath.render (p : FPath) : String :=
  "/" ++ String.intercalate "/" (p.dirs ++ [p.name])

/-- The filesystem: (path, content) pairs; later writes shadow earlier
entries. -/
abbrev FS : Type := List (FPath × String)

/-- Read a file: first matching entry, `none` when the file is absent
(Python `open(p, "r")` raising `FileNotFoundError`). -/
def fsRead : FS → FPath → Option String
  | [], _ => none
  | (q, c) :: rest, p => if q = p then some c else fsRead rest p

/-- Write a file (`open(p, "w")` plus `write`): the new entry shadows any
older entry for the same path. -/
def fsWrite (fs : FS) (p : FPath) (content : String) : FS :=
  (p, content) :: fs

/-! ### The documentation pipeline -/

/-- The output-path rule of `handling_files` (main.py lines 145-151):
the input path itself under `--replace`, otherwise the sibling file
`doc_<name>` of the resolved input. -/
def output_path (replace : Bool) (file : FPath) : FPath :=
  if replace then file.resolve
  else (file.resolve).with_name ("doc_" ++ file.name)

/-- Outcome of a CLI run over the file system:
* `ok fs echoes calls` — normal completion, final filesystem, the
  `typer.echo` messages printed, and the contents sent to the model;
* `exit code msg fs echoes calls` — `typer.Exit(code)` after printing
  `msg`, with the filesystem as left behind;
* `raised e fs calls` — an uncaught Python exception. -/
inductive RunResult where
  | ok (fs : FS) (echoes : List String) (calls : List String)
  | exit (code : Nat) (msg : String) (fs : FS) (echoes : List String) (calls : List String)
  | raised (e : PyErr) (fs : FS) (calls : List String)
deriving DecidableEq

/-- The per-file success notice (main.py line 162). -/
def readyMsg (file : FPath) : String :=
  "Documentation for " ++ file.name ++ " ready"

/-- The missing-file message (main.py line 165). -/
def missingMsg (file : FPath) : String :=
  "The file " ++ file.render ++ " doesn't exist"

/-- `handling_files` (main.py lines 129-166): for each file in order,
compute the output path, read the file (a missing file prints a message
and raises `typer.Exit(1)`, aborting the whole batch), send the content to
the model, strip the first and last line of the response, write the result
to the output path, and echo a success notice. -/
def handling_files (gen : String → String) (replace : Bool) : FS → List FPath → RunResult
  | fs, [] => .ok fs [] []
  | fs, file :: rest =>
    let output_file := output_path replace file
    match fsRead fs file.resolve with
    | none => .exit 1 (missingMsg file) fs [] []
    | some file_content =>
      let doc_code := stripFence (gen file_content)
      let fs2 := fsWrite fs output_file doc_code
      match handling_files gen replace fs2 rest with
      | .ok fs3 es cs => .ok fs3 (readyMsg file :: es) (file_content :: cs)
      | .exit c m fs3 es cs => .exit c m fs3 (readyMsg file :: es) (file_content :: cs)
      | .raised e fs3 cs => .raised e fs3 (file_content :: cs)

/-- Reference fold describing the effect of processing a prefix of files
on which every read succeeds: returns the final filesystem, the echoes and
the model calls. -/
def runPrefix (gen : String → String) (replace : Bool) : FS → List FPath → FS × List String × List String
  | fs, [] => (fs, [], [])
  | fs, p :: ps =>
    let content := (fsRead fs p.resolve).getD ""
    let fs2 := fsWrite fs (output_path replace p) (stripFence (gen content))
    let r := runPrefix gen replace fs2 ps
    (r.1, readyMsg p :: r.2.1, content :: r.2.2)

/-! ### `init_config` and the `document` command -/

/-- The not-configured message (main.py lines 100-102). -/
def apiKeyMissingMsg : String :=
  "API key not found. Please configure it using 'docsai config --api-key'."

/-- Outcome of `init_config`: the API key handed to `genai.configure`, a
`typer.Exit`, or an uncaught exception. -/
inductive InitResult where
  | ok (api_key : PyVal)
  | exit (code : Nat) (msg : String)
  | raised (e : PyErr)

/-- `init_config` (main.py lines 84-105) applied to the parsed content of
the home config file (`none` when the file is absent; the code then
creates it empty, which parses to the empty dict).  `api_key is False`
holds exactly for the boolean `False`. -/
def init_config (cfg : Option Toml) : InitResult :=
  let parsed : Toml := match cfg with | none => [] | some t => t
  match load_config parsed with
  | .error e => .raised e
  | .ok (.bool false) => .exit 1 apiKeyMissingMsg
  | .ok v => .ok v

/-- The `document` command (main.py lines 13-36): builds the model, runs
`init_config`, then `handling_files`.  `cfg` is the parsed home config
file, `fs` the filesystem holding the input files. -/
def document (cfg : Option Toml) (files : List FPath) (replace : Bool)
    (gen : String → String) (fs : FS) : RunResult :=
  match init_config cfg with
  | .exit c m => .exit c m fs [] []
  | .raised e => .raised e fs []
  | .ok _ => handling_files gen replace fs files

/-! ### The `config` command -/

/-- Python `d[k1][k2] = v` on a parsed TOML document: raises `KeyError`
when `k1` is absent, `TypeError` when `d[k1]` is not a dict, otherwise
updates the inner dict in place. -/
def setItem2 (d : Toml) (k1 k2 : String) (v : PyVal) : Except PyErr Toml :=
  match lookupKey d k1 with
  | none => .error .keyError
  | some (.dict t) => .ok (setKey d k1 (.dict (setKey t k2 v)))
  | some _ => .error .typeError

/-- Outcome of the `config` command: the TOML document dumped back to the
file, a `typer.Exit`, or an uncaught exception. -/
inductive CfgResult where
  | ok (cf : Toml)
  | exit (code : Nat) (msg : String)
  | raised (e : PyErr)

/-- The config-file-not-found message (main.py line 68). -/
def cfgMissingMsg (config_path : FPath) : String :=
  "Configuration file not found at " ++ config_path.render ++ ", please create one."

/-- The `config` command (main.py lines 39-81) applied to the parsed
content of the file at `config_path` (`none` when the file is absent):
exits with code 1 when the file is missing, otherwise inserts empty `API`
and `PATH` tables when absent, sets `API.API_KEY` and `PATH.PATH`, and
dumps the document back. -/
def config (api_key : String) (config_path : FPath) (cfgFile : Option Toml) : CfgResult :=
  match cfgFile with
  | none => .exit 1 (cfgMissingMsg config_path)
  | some config_file =>
    let cf1 := if hasKey config_file "API" then config_file
               else config_file ++ [("API", PyVal.dict [])]
    let cf2 := if hasKey cf1 "PATH" then cf1
               else cf1 ++ [("PATH", PyVal.dict [])]
    match setItem2 cf2 "API" "API_KEY" (.str api_key) with
    | .error e => .raised e
    | .ok cf3 =>
      match setItem2 cf3 "PATH" "PATH" (.str config_path.render) with
      | .error e => .raised e
      | .ok cf4 => .ok cf4

/-- The content of the config file after a `config` run: the dumped
document on success, the original state otherwise (nothing is written on
exit or exception). -/
def configFileAfter (orig : Option Toml) : CfgResult → Option Toml
  | .ok cf => some cf
  | _ => orig

/-! ### src/docsai/doc_main.py

Independent transcription of the second source file, which differs from
`main.py` only in docstrings and a trailing blank line.  It shares the
embeddings of the Python builtins (`PyVal`, `subscript`, `splitlines`,
slicing, `join`, the filesystem model) but each function of the file is
transcribed afresh, with its messages and inline expressions spelled out,
so that the equivalence claim compares two genuine transcriptions. -/

namespace DocMain

/-- `load_config` (doc_main.py lines 84-92). -/
def load_config (config_file : Toml) : Except PyErr PyVal :=
  match subscript (.dict config_file) "API" with
  | .error .keyError => .ok (.bool false)
  | .error e => .error e
  | .ok a =>
    match subscript a "API_KEY" with
    | .error .keyError => .ok (.bool false)
    | .error e => .error e
    | .ok v => .ok v

/-- `init_config` (doc_main.py lines 66-81). -/
def init_config (cfg : Option Toml) : InitResult :=
  let parsed : Toml := match cfg with | none => [] | some t => t
  match load_config parsed with
  | .error e => .raised e
  | .ok (.bool false) =>
    .exit 1 "API key not found. Please configure it using 'docsai config --api-key'."
  | .ok v => .ok v

/-- `config` (doc_main.py lines 39-63). -/
def config (api_key : String) (config_path : FPath) (cfgFile : Option Toml) : CfgResult :=
  match cfgFile with
  | none =>
    .exit 1 ("Configuration file not found at " ++ config_path.render ++ ", please create one.")
  | some config_file =>
    let cf1 := if hasKey config_file "API" then config_file
               else config_file ++ [("API", PyVal.dict [])]
    let cf2 := if hasKey cf1 "PATH" then cf1
               else cf1 ++ [("PATH", PyVal.dict [])]
    match setItem2 cf2 "API" "API_KEY" (.str api_key) with
    | .error e => .raised e
    | .ok cf3 =>
      match setItem2 cf3 "PATH" "PATH" (.str config_path.render) with
      | .error e => .raised e
      | .ok cf4 => .ok cf4

/-- `handling_files` (doc_main.py lines 95-132), with the output-path
rule and the fence stripping inlined as in the source. -/
def handling_files (gen : String → String) (replace : Bool) : FS → List FPath → RunResult
  | fs, [] => .ok fs [] []
  | fs, file :: rest =>
    let output_file := if replace then file.resolve
                       else (file.resolve).with_name ("doc_" ++ file.name)
    match fsRead fs file.resolve with
    | none => .exit 1 ("The file " ++ file.render ++ " doesn't exist") fs [] []
    | some file_content =>
      let doc_code := pyJoin "\n" (pySlice1m1 (splitlines (gen file_content)))
      let fs2 := fsWrite fs output_file doc_code
      match handling_files gen replace fs2 rest with
      | .ok fs3 es cs =>
        .ok fs3 (("Documentation for " ++ file.name ++ " ready") :: es) (file_content :: cs)
      | .exit c m fs3 es cs =>
        .exit c m fs3 (("Documentation for " ++ file.name ++ " ready") :: es) (file_content :: cs)
      | .raised e fs3 cs => .raised e fs3 (file_content :: cs)

/-- The `document` command (doc_main.py lines 13-36). -/
def document (cfg : Option Toml) (files : List FPath) (replace : Bool)
    (gen : String → String) (fs : FS) : RunResult :=
  match init_config cfg with
  | .exit c m => .exit c m fs [] []
  | .raised e => .raised e fs []
  | .ok _ => handling_files gen replace fs files

end DocMain

/-! ### Specification-side predicates -/

/-- The keys of a parsed TOML document, in insertion order. -/
def keysOf (d : List (String × PyVal)) : List String :=
  d.map Prod.fst

/-- The entry at `k`, when present, is a table. -/
def entryOkay (d : List (String × PyVal)) (k : String) : Bool :=
  match lookupKey d k with
  | none => true
  | some (.dict _) => true
  | some _ => false

/-- "No API key is configured": the config file is absent, or its `API`
table is absent, or the `API` table lacks `API_KEY`. -/
def lacksApiKey : Option Toml → Bool
  | none => true
  | some t =>
    match lookupKey t "API" with
    | none => true
    | some (.dict u) => (lookupKey u "API_KEY").isNone
    | some _ => false

end Docsai

namespace Docsai

/-! ## Helper lemmas on Python dicts -/

theorem lookupKey_setKey_self (d : List (String × PyVal)) (k : String) (v : PyVal) :
    lookupKey (setKey d k v) k = some v := by
  induction d with
  | nil => simp [setKey, lookupKey]
  | cons hd tl ih =>
    obtain ⟨k3, w⟩ := hd
    by_cases h3 : k3 = k
    · subst h3; simp [setKey, lookupKey]
    · simp [setKey, h3, lookupKey, ih]

theorem lookupKey_setKey_ne (d : List (String × PyVal)) (k k2 : String) (v : PyVal)
    (h : k2 ≠ k) : lookupKey (setKey d k v) k2 = lookupKey d k2 := by
  induction d with
  | nil => simp [setKey, lookupKey, Ne.symm h]
  | cons hd tl ih =>
    obtain ⟨k3, w⟩ := hd
    by_cases h3 : k3 = k
    · subst h3
      have hne : ¬ k3 = k2 := fun hh => h hh.symm
      simp [setKey, lookupKey, hne]
    · simp only [setKey, if_neg h3, lookupKey]
      by_cases h2 : k3 = k2
      · simp [h2]
      · simp [h2, ih]

theorem setKey_id (d : List (String × PyVal)) (k : String) (v : PyVal)
    (h : lookupKey d k = some v) : setKey d k v = d := by
  induction d with
  | nil => simp [lookupKey] at h
  | cons hd tl ih =>
    obtain ⟨k3, w⟩ := hd
    by_cases h3 : k3 = k
    · subst h3
      rw [lookupKey, if_pos rfl] at h
      cases Option.some.inj h
      simp [setKey]
    · rw [lookupKey, if_neg h3] at h
      simp [setKey, h3, ih h]

theorem lookupKey_append (d1 d2 : List (String × PyVal)) (k : String) :
    lookupKey (d1 ++ d2) k = (lookupKey d1 k).or (lookupKey d2 k) := by
  induction d1 with
  | nil => simp [lookupKey]
  | cons hd tl ih =>
    obtain ⟨k3, w⟩ := hd
    by_cases h3 : k3 = k
    · simp [lookupKey, h3]
    · simp [lookupKey, h3, ih]

theorem lookupKey_eq_none_iff (d : List (String × PyVal)) (k : String) :
    lookupKey d k = none ↔ k ∉ keysOf d := by
  induction d with
  | nil => simp [lookupKey, keysOf]
  | cons hd tl ih =>
    obtain ⟨k3, w⟩ := hd
    simp only [keysOf, List.map_cons, List.mem_cons]
    by_cases h3 : k3 = k
    · subst h3; simp [lookupKey]
    · rw [lookupKey, if_neg h3, ih]
      simp only [keysOf, not_or]
      constructor
      · intro h1; exact ⟨fun he => h3 he.symm, h1⟩
      · exact fun h1 => h1.2

theorem keysOf_setKey (d : List (String × PyVal)) (k : String) (v w : PyVal)
    (h : lookupKey d k = some w) : keysOf (setKey d k v) = keysOf d := by
  induction d with
  | nil => simp [lookupKey] at h
  | cons hd tl ih =>
    obtain ⟨k3, w3⟩ := hd
    by_cases h3 : k3 = k
    · subst h3; simp [setKey, keysOf]
    · rw [lookupKey, if_neg h3] at h
      simp only [setKey, if_neg h3, keysOf, List.map_cons, List.cons.injEq, true_and]
      exact ih h

/-! ## C4: `load_config` on existing, parseable config files -/

/-- C4 (amended): on a parsed config file, `load_config` returns the value
at `API.API_KEY` when present, and the `NotConfigured` sentinel `False`
when the `API` table is absent or lacks `API_KEY`.  (The amendment drops
the non-table `API` entry case, where the code raises an uncaught
`TypeError`; see the counterexample.) -/
theorem c4_load_config_amended (cfg : Toml) :
    (lookupKey cfg "API" = none → load_config cfg = .ok (.bool false))
    ∧ (∀ t : List (String × PyVal), lookupKey cfg "API" = some (.dict t) →
        (lookupKey t "API_KEY" = none → load_config cfg = .ok (.bool false))
        ∧ (∀ v : PyVal, lookupKey t "API_KEY" = some v → load_config cfg = .ok v)) := by
  refine ⟨fun h => ?_, fun t ht => ⟨fun h => ?_, fun v hv => ?_⟩⟩
  · simp [load_config, subscript, h]
  · simp [load_config, subscript, ht, h]
  · simp [load_config, subscript, ht, hv]

/-- Witness for C4 at concrete config files: `API` absent, `API` table
without the key, and `API.API_KEY = "X"`. -/
theorem c4_load_config_witness :
    load_config [] = .ok (.bool false)
    ∧ load_config [("API", PyVal.dict [])] = .ok (.bool false)
    ∧ load_config [("API", PyVal.dict [("API_KEY", PyVal.str "X")])] = .ok (.str "X") :=
  ⟨(c4_load_config_amended []).1 rfl,
   ((c4_load_config_amended [("API", PyVal.dict [])]).2 [] rfl).1 rfl,
   ((c4_load_config_amended [("API", PyVal.dict [("API_KEY", PyVal.str "X")])]).2
      [("API_KEY", PyVal.str "X")] rfl).2 (PyVal.str "X") rfl⟩

/-- C4 counterexample: a config file that exists and parses as TOML
(`API = "x"` at top level) lacks the `API_KEY` entry, yet `load_config`
does not return the sentinel: subscripting the string raises an uncaught
`TypeError` (only `KeyError` is caught). -/
theorem c4_nontable_counterexample :
    load_config [("API", PyVal.str "x")] = .error .typeError := rfl

/-! ## C5: state of the config file after a `config` write -/

theorem ensure_lookup (cf : Toml) (k : String) (hok : entryOkay cf k = true) :
    ∃ t, lookupKey (if hasKey cf k then cf else cf ++ [(k, PyVal.dict [])]) k
          = some (.dict t) := by
  unfold entryOkay at hok
  match h : lookupKey cf k with
  | none =>
    refine ⟨[], ?_⟩
    simp [hasKey, h, lookupKey_append, lookupKey]
  | some (.dict t) =>
    refine ⟨t, ?_⟩
    simp [hasKey, h]
  | some (.str s) => rw [h] at hok; simp at hok
  | some (.bool b) => rw [h] at hok; simp at hok

theorem ensure_lookup_ne (cf : Toml) (k k2 : String) (h : k2 ≠ k) :
    lookupKey (if hasKey cf k then cf else cf ++ [(k, PyVal.dict [])]) k2
      = lookupKey cf k2 := by
  by_cases hm : hasKey cf k
  · simp [hm]
  · simp [hm, lookupKey_append, lookupKey, Ne.symm h]

theorem ensure_entryOkay (cf : Toml) (k k2 : String) (h : k2 ≠ k)
    (hok : entryOkay cf k2 = true) :
    entryOkay (if hasKey cf k then cf else cf ++ [(k, PyVal.dict [])]) k2 = true := by
  unfold entryOkay at hok ⊢
  rw [ensure_lookup_ne cf k k2 h]
  exact hok

theorem ensure_nodup (cf : Toml) (k : String) (hnd : (keysOf cf).Nodup) :
    (keysOf (if hasKey cf k then cf else cf ++ [(k, PyVal.dict [])])).Nodup := by
  by_cases hm : hasKey cf k
  · simpa [hm] using hnd
  · have hnone : lookupKey cf k = none := by
      unfold hasKey at hm
      exact Option.not_isSome_iff_eq_none.mp hm
    have hnotin : k ∉ keysOf cf := (lookupKey_eq_none_iff cf k).mp hnone
    simp [hm, keysOf, List.nodup_append]
    exact ⟨by simpa [keysOf] using hnd, by simpa [keysOf, List.disjoint_singleton] using hnotin⟩

/-- C5 (amended): for every pre-existing, parseable config file whose
`API` and `PATH` entries, when present, are tables (the amendment: a
non-table entry makes the item assignment raise an uncaught `TypeError`,
see the counterexample), a `config` write succeeds and leaves both tables
present with `API.API_KEY` equal to the given key; keys stay duplicate-free
and a second save of the same key returns the identical file. -/
theorem c5_config_save_amended (cf : Toml) (key : String) (p : FPath)
    (hA : entryOkay cf "API" = true) (hP : entryOkay cf "PATH" = true)
    (hnd : (keysOf cf).Nodup) :
    ∃ cf', config key p (some cf) = .ok cf'
      ∧ (∃ t, lookupKey cf' "API" = some (.dict t)
              ∧ lookupKey t "API_KEY" = some (.str key))
      ∧ (∃ u, lookupKey cf' "PATH" = some (.dict u))
      ∧ (keysOf cf').Nodup
      ∧ config key p (some cf') = .ok cf' := by
  have hPA : ("API" : String) ≠ "PATH" := by decide
  have hAP : ("PATH" : String) ≠ "API" := by decide
  obtain ⟨tA, htA1⟩ := ensure_lookup cf "API" hA
  have hP1 := ensure_entryOkay cf "API" "PATH" hPA.symm hP
  obtain ⟨tP, htP2⟩ :=
    ensure_lookup (if hasKey cf "API" then cf else cf ++ [("API", PyVal.dict [])]) "PATH" hP1
  have htA2 : lookupKey
      (if hasKey (if hasKey cf "API" then cf else cf ++ [("API", PyVal.dict [])]) "PATH"
       then (if hasKey cf "API" then cf else cf ++ [("API", PyVal.dict [])])
       else (if hasKey cf "API" then cf else cf ++ [("API", PyVal.dict [])])
            ++ [("PATH", PyVal.dict [])]) "API" = some (.dict tA) := by
    rw [ensure_lookup_ne _ "PATH" "API" hPA]
    exact htA1
  set cf2 : Toml :=
    (if hasKey (if hasKey cf "API" then cf else cf ++ [("API", PyVal.dict [])]) "PATH"
     then (if hasKey cf "API" then cf else cf ++ [("API", PyVal.dict [])])
     else (if hasKey cf "API" then cf else cf ++ [("API", PyVal.dict [])])
          ++ [("PATH", PyVal.dict [])]) with hcf2
  have hnd2 : (keysOf cf2).Nodup := ensure_nodup _ "PATH" (ensure_nodup cf "API" hnd)
  -- the two in-place updates
  set tA' : List (String × PyVal) := setKey tA "API_KEY" (.str key) with htA'
  set cf3 : Toml := setKey cf2 "API" (.dict tA') with hcf3
  set tP' : List (String × PyVal) := setKey tP "PATH" (.str p.render) with htP'
  set cf4 : Toml := setKey cf3 "PATH" (.dict tP') with hcf4
  have hs1 : setItem2 cf2 "API" "API_KEY" (.str key) = .ok cf3 := by
    simp [setItem2, htA2, hcf3]
  have htP3 : lookupKey cf3 "PATH" = some (.dict tP) := by
    rw [hcf3, lookupKey_setKey_ne _ _ _ _ hAP]
    exact htP2
  have hs2 : setItem2 cf3 "PATH" "PATH" (.str p.render) = .ok cf4 := by
    simp [setItem2, htP3, hcf4]
  have hA4 : lookupKey cf4 "API" = some (.dict tA') := by
    rw [hcf4, lookupKey_setKey_ne _ _ _ _ hPA, hcf3, lookupKey_setKey_self]
  have hP4 : lookupKey cf4 "PATH" = some (.dict tP') := by
    rw [hcf4, lookupKey_setKey_self]
  refine ⟨cf4, ?_, ⟨tA', hA4, by rw [htA', lookupKey_setKey_self]⟩, ⟨tP', hP4⟩, ?_, ?_⟩
  · -- the run itself
    simp only [config]
    rw [← hcf2]
    simp only [hs1, hs2]
  · -- keys stay duplicate-free
    have e1 : keysOf cf3 = keysOf cf2 := keysOf_setKey cf2 "API" _ _ htA2
    have e2 : keysOf cf4 = keysOf cf3 := keysOf_setKey cf3 "PATH" _ _ htP3
    rw [e2, e1]; exact hnd2
  · -- a second save returns the same file
    have hh1 : hasKey cf4 "API" = true := by simp [hasKey, hA4]
    have hh2 : hasKey cf4 "PATH" = true := by simp [hasKey, hP4]
    have hinner1 : setKey tA' "API_KEY" (.str key) = tA' :=
      setKey_id _ _ _ (by rw [htA', lookupKey_setKey_self])
    have hinner2 : setKey tP' "PATH" (.str p.render) = tP' :=
      setKey_id _ _ _ (by rw [htP', lookupKey_setKey_self])
    have hs1' : setItem2 cf4 "API" "API_KEY" (.str key) = .ok cf4 := by
      simp only [setItem2, hA4, hinner1]
      rw [setKey_id _ _ _ hA4]
    have hs2' : setItem2 cf4 "PATH" "PATH" (.str p.render) = .ok cf4 := by
      simp only [setItem2, hP4, hinner2]
      rw [setKey_id _ _ _ hP4]
    simp only [config, hh1, hh2, if_pos, hs1', hs2']

/-- Witness for C5 at the empty (freshly created) config file. -/
theorem c5_config_save_witness :
    ∃ cf', config "X" ⟨[], "docsai.toml"⟩ (some []) = .ok cf'
      ∧ (∃ t, lookupKey cf' "API" = some (.dict t)
              ∧ lookupKey t "API_KEY" = some (.str "X"))
      ∧ (∃ u, lookupKey cf' "PATH" = some (.dict u))
      ∧ (keysOf cf').Nodup
      ∧ config "X" ⟨[], "docsai.toml"⟩ (some cf') = .ok cf' :=
  c5_config_save_amended [] "X" ⟨[], "docsai.toml"⟩ rfl rfl (by simp [keysOf])

/-- C5 counterexample: a pre-existing, parseable config file whose `API`
entry is a string.  The assignment `config_file["API"]["API_KEY"] = key`
raises an uncaught `TypeError`, nothing is written, and the resulting file
state has no `API.API_KEY` at all — refuting the claim as stated. -/
theorem c5_nontable_counterexample :
    config "k" ⟨[], "docsai.toml"⟩ (some [("API", PyVal.str "x")]) = .raised .typeError
    ∧ configFileAfter (some [("API", PyVal.str "x")])
        (config "k" ⟨[], "docsai.toml"⟩ (some [("API", PyVal.str "x")]))
      = some [("API", PyVal.str "x")] :=
  ⟨rfl, rfl⟩

/-! ## C6: `config` on a missing config file -/

/-- C6: invoking `config` when no file exists at `config_path` exits with
code 1, prints a message referencing the path, and creates no file. -/
theorem c6_config_missing_file (api_key : String) (config_path : FPath) :
    config api_key config_path none
      = .exit 1 ("Configuration file not found at " ++ config_path.render ++ ", please create one.")
    ∧ configFileAfter none (config api_key config_path none) = none :=
  ⟨rfl, rfl⟩

/-! ## C7: `document` with no API key configured -/

/-- C7 (amended): when the config file is absent, its `API` entry is
absent, or its `API` entry is a table lacking `API_KEY`, the `document`
command prints the not-configured message and exits with code 1 before
touching any input file: the filesystem is unchanged, nothing is echoed,
and no model call is made.  When instead the `API` entry is present as a
non-table value — a config that also lacks `API.API_KEY` — `load_config`
raises an uncaught `TypeError`: the run still terminates before
processing any input file (filesystem unchanged, no model call), but via
the propagated exception rather than the printed message and
`typer.Exit(1)` (the amendment forced by the counterexample). -/
theorem c7_document_not_configured (cfg : Option Toml) (files : List FPath)
    (replace : Bool) (gen : String → String) (fs : FS) :
    (lacksApiKey cfg = true →
      document cfg files replace gen fs = .exit 1 apiKeyMissingMsg fs [] [])
    ∧ (∀ (t : Toml) (s : String), cfg = some t → lookupKey t "API" = some (.str s) →
        document cfg files replace gen fs = .raised .typeError fs [])
    ∧ (∀ (t : Toml) (b : Bool), cfg = some t → lookupKey t "API" = some (.bool b) →
        document cfg files replace gen fs = .raised .typeError fs []) := by
  refine ⟨fun h => ?_, fun t s hcfg ht => ?_, fun t b hcfg ht => ?_⟩
  · match cfg with
    | none => rfl
    | some t =>
      simp only [lacksApiKey] at h
      match ht : lookupKey t "API" with
      | none =>
        simp [document, init_config, load_config, subscript, ht]
      | some (.dict u) =>
        rw [ht] at h
        simp only [Option.isNone_iff_eq_none] at h
        simp [document, init_config, load_config, subscript, ht, h]
      | some (.str s) => rw [ht] at h; simp at h
      | some (.bool b) => rw [ht] at h; simp at h
  · subst hcfg
    simp [document, init_config, load_config, subscript, ht]
  · subst hcfg
    simp [document, init_config, load_config, subscript, ht]

/-- Witness for C7: an absent config file (exit-1 branch), and configs
whose `API` entry is a string resp. a boolean (uncaught-`TypeError`
branches). -/
theorem c7_document_not_configured_witness :
    document none [⟨[], "a.py"⟩] false (fun _ => "resp") [(⟨[], "a.py"⟩, "code")]
      = .exit 1 apiKeyMissingMsg [(⟨[], "a.py"⟩, "code")] [] []
    ∧ document (some [("API", PyVal.str "x")]) [⟨[], "a.py"⟩] false (fun _ => "resp")
        [(⟨[], "a.py"⟩, "code")]
      = .raised .typeError [(⟨[], "a.py"⟩, "code")] []
    ∧ document (some [("API", PyVal.bool true)]) [⟨[], "a.py"⟩] false (fun _ => "resp")
        [(⟨[], "a.py"⟩, "code")]
      = .raised .typeError [(⟨[], "a.py"⟩, "code")] [] :=
  ⟨(c7_document_not_configured none [⟨[], "a.py"⟩] false (fun _ => "resp")
      [(⟨[], "a.py"⟩, "code")]).1 rfl,
   (c7_document_not_configured (some [("API", PyVal.str "x")]) [⟨[], "a.py"⟩] false
      (fun _ => "resp") [(⟨[], "a.py"⟩, "code")]).2.1 [("API", PyVal.str "x")] "x" rfl rfl,
   (c7_document_not_configured (some [("API", PyVal.bool true)]) [⟨[], "a.py"⟩] false
      (fun _ => "resp") [(⟨[], "a.py"⟩, "code")]).2.2 [("API", PyVal.bool true)] true rfl rfl⟩

/-- C7 counterexample: the config file `API = "x"` exists, parses, and
lacks `API.API_KEY`, so the claim as stated requires the not-configured
message and `typer.Exit(1)`; instead `document` terminates with the
uncaught `TypeError` propagating out of `load_config` — in particular its
outcome is not the claimed exit. -/
theorem c7_nontable_counterexample :
    document (some [("API", PyVal.str "x")]) [⟨[], "a.py"⟩] false (fun _ => "resp")
        [(⟨[], "a.py"⟩, "code")]
      = .raised .typeError [(⟨[], "a.py"⟩, "code")] []
    ∧ document (some [("API", PyVal.str "x")]) [⟨[], "a.py"⟩] false (fun _ => "resp")
        [(⟨[], "a.py"⟩, "code")]
      ≠ .exit 1 apiKeyMissingMsg [(⟨[], "a.py"⟩, "code")] [] [] :=
  ⟨rfl, by decide⟩

/-! ## Helper lemmas on the filesystem and the pipeline -/

theorem fsRead_fsWrite (fs : FS) (q p : FPath) (c : String) :
    fsRead (fsWrite fs q c) p = if q = p then some c else fsRead fs p := rfl

theorem fsRead_fsWrite_isSome (fs : FS) (q p : FPath) (c : String)
    (h : (fsRead fs p).isSome = true) :
    (fsRead (fsWrite fs q c) p).isSome = true := by
  rw [fsRead_fsWrite]
  by_cases hw : q = p
  · simp [hw]
  · simp [hw, h]

theorem output_path_inj (replace : Bool) (p q : FPath)
    (h : output_path replace p = output_path replace q) : p = q := by
  cases replace
  · simp only [output_path, FPath.resolve, FPath.with_name, Bool.false_eq_true,
      if_false, FPath.mk.injEq] at h
    obtain ⟨hd, hn⟩ := h
    have hname : p.name = q.name := by
      have h2 := congrArg String.data hn
      rw [String.data_append, String.data_append] at h2
      exact String.ext (List.append_cancel_left h2)
    cases p; cases q
    simp_all
  · simpa [output_path, FPath.resolve] using h

theorem runPrefix_read_mono (gen : String → String) (replace : Bool)
    (ps : List FPath) (fs : FS) (q : FPath)
    (h : (fsRead fs q).isSome = true) :
    (fsRead (runPrefix gen replace fs ps).1 q).isSome = true := by
  induction ps generalizing fs with
  | nil => exact h
  | cons p ps ih =>
    simp only [runPrefix]
    exact ih _ (fsRead_fsWrite_isSome _ _ _ _ h)

theorem runPrefix_read_untouched (gen : String → String) (replace : Bool)
    (ps : List FPath) (fs : FS) (q : FPath)
    (h : ∀ p ∈ ps, output_path replace p ≠ q) :
    fsRead (runPrefix gen replace fs ps).1 q = fsRead fs q := by
  induction ps generalizing fs with
  | nil => rfl
  | cons p ps ih =>
    simp only [runPrefix]
    rw [ih _ (fun r hr => h r (by simp [hr]))]
    rw [fsRead_fsWrite, if_neg (h p (by simp))]

theorem runPrefix_writes_outputs (gen : String → String) (replace : Bool)
    (ps : List FPath) (fs : FS) (p : FPath) (hp : p ∈ ps) :
    (fsRead (runPrefix gen replace fs ps).1 (output_path replace p)).isSome = true := by
  induction ps generalizing fs with
  | nil => cases hp
  | cons q ps ih =>
    simp only [runPrefix]
    rcases List.mem_cons.mp hp with rfl | hmem
    · exact runPrefix_read_mono _ _ _ _ _ (by rw [fsRead_fsWrite, if_pos rfl]; rfl)
    · exact ih _ hmem

theorem handling_files_aborts (gen : String → String) (replace : Bool) :
    ∀ (pre : List FPath) (fs : FS) (post : List FPath) (bad : FPath),
    (∀ p ∈ pre, (fsRead fs p.resolve).isSome = true) →
    fsRead fs bad.resolve = none →
    (∀ p ∈ pre, output_path replace p ≠ bad.resolve) →
    handling_files gen replace fs (pre ++ bad :: post)
      = .exit 1 (missingMsg bad) (runPrefix gen replace fs pre).1
          (runPrefix gen replace fs pre).2.1 (runPrefix gen replace fs pre).2.2 := by
  intro pre
  induction pre with
  | nil =>
    intro fs post bad h1 h2 h3
    simp [handling_files, h2, runPrefix]
  | cons p ps ih =>
    intro fs post bad h1 h2 h3
    obtain ⟨content, hc⟩ := Option.isSome_iff_exists.mp (h1 p (by simp))
    have hno : output_path replace p ≠ bad.resolve := h3 p (by simp)
    have h1' : ∀ q ∈ ps,
        (fsRead (fsWrite fs (output_path replace p) (stripFence (gen content))) q.resolve).isSome
          = true :=
      fun q hq => fsRead_fsWrite_isSome _ _ _ _ (h1 q (by simp [hq]))
    have h2' : fsRead (fsWrite fs (output_path replace p) (stripFence (gen content))) bad.resolve
        = none := by
      rw [fsRead_fsWrite, if_neg hno]
      exact h2
    have h3' : ∀ q ∈ ps, output_path replace q ≠ bad.resolve :=
      fun q hq => h3 q (by simp [hq])
    have hrec := ih (fsWrite fs (output_path replace p) (stripFence (gen content))) post bad
      h1' h2' h3'
    simp only [List.cons_append, handling_files, hc, runPrefix, Option.getD_some,
      List.append_eq]
    rw [hrec]

/-! ## C3: a missing input file aborts the batch -/

/-- C3 (amended): if a path in the batch does not exist when the pipeline
reaches it — it was missing initially and is not the output path of an
earlier input (the amendment forced by the counterexample, where an
earlier write creates the missing file mid-run) — and all earlier paths
are readable, then the run exits with code 1 and a message naming that
file, the filesystem is exactly the one produced by processing the
earlier paths (their outputs remain written — no rollback — and nothing
later is processed), and nothing was written at the missing path's output
location. -/
theorem c3_missing_file_aborts (gen : String → String) (replace : Bool) (fs : FS)
    (pre post : List FPath) (bad : FPath)
    (h1 : ∀ p ∈ pre, (fsRead fs p.resolve).isSome = true)
    (h2 : fsRead fs bad.resolve = none)
    (h3 : ∀ p ∈ pre, output_path replace p ≠ bad.resolve) :
    handling_files gen replace fs (pre ++ bad :: post)
      = .exit 1 (missingMsg bad) (runPrefix gen replace fs pre).1
          (runPrefix gen replace fs pre).2.1 (runPrefix gen replace fs pre).2.2
    ∧ (∀ p ∈ pre,
        (fsRead (runPrefix gen replace fs pre).1 (output_path replace p)).isSome = true)
    ∧ fsRead (runPrefix gen replace fs pre).1 (output_path replace bad)
        = fsRead fs (output_path replace bad) := by
  refine ⟨handling_files_aborts gen replace pre fs post bad h1 h2 h3,
    fun p hp => runPrefix_writes_outputs gen replace pre fs p hp, ?_⟩
  apply runPrefix_read_untouched
  intro p hp heq
  have hpb : p = bad := output_path_inj replace p bad heq
  subst hpb
  have hsome := h1 p hp
  rw [h2] at hsome
  simp at hsome

/-- Witness for C3: a three-file batch whose middle file is missing. -/
theorem c3_missing_file_witness :
    handling_files (fun _ => "l1\nl2\nl3") false
        [(⟨[], "a.py"⟩, "codeA"), (⟨[], "c.py"⟩, "codeC")]
        ([⟨[], "a.py"⟩] ++ ⟨[], "b.py"⟩ :: [⟨[], "c.py"⟩])
      = .exit 1 (missingMsg ⟨[], "b.py"⟩)
          (runPrefix (fun _ => "l1\nl2\nl3") false
            [(⟨[], "a.py"⟩, "codeA"), (⟨[], "c.py"⟩, "codeC")] [⟨[], "a.py"⟩]).1
          (runPrefix (fun _ => "l1\nl2\nl3") false
            [(⟨[], "a.py"⟩, "codeA"), (⟨[], "c.py"⟩, "codeC")] [⟨[], "a.py"⟩]).2.1
          (runPrefix (fun _ => "l1\nl2\nl3") false
            [(⟨[], "a.py"⟩, "codeA"), (⟨[], "c.py"⟩, "codeC")] [⟨[], "a.py"⟩]).2.2
    ∧ (∀ p ∈ [FPath.mk [] "a.py"],
        (fsRead (runPrefix (fun _ => "l1\nl2\nl3") false
            [(⟨[], "a.py"⟩, "codeA"), (⟨[], "c.py"⟩, "codeC")] [⟨[], "a.py"⟩]).1
          (output_path false p)).isSome = true)
    ∧ fsRead (runPrefix (fun _ => "l1\nl2\nl3") false
          [(⟨[], "a.py"⟩, "codeA"), (⟨[], "c.py"⟩, "codeC")] [⟨[], "a.py"⟩]).1
        (output_path false ⟨[], "b.py"⟩)
      = fsRead [(⟨[], "a.py"⟩, "codeA"), (⟨[], "c.py"⟩, "codeC")]
          (output_path false ⟨[], "b.py"⟩) :=
  c3_missing_file_aborts (fun _ => "l1\nl2\nl3") false
    [(⟨[], "a.py"⟩, "codeA"), (⟨[], "c.py"⟩, "codeC")]
    [⟨[], "a.py"⟩] [⟨[], "c.py"⟩] ⟨[], "b.py"⟩
    (by decide) (by decide) (by decide)

/-- C3 counterexample: the claim as stated quantifies over paths that do
not exist when `document` is invoked.  Here `doc_x.py` does not exist
initially, but processing `x.py` first creates it, so the batch completes
with no error and every file is processed — there is no exit-1 abort. -/
theorem c3_created_midrun_counterexample :
    fsRead [(⟨[], "x.py"⟩, "code")] (FPath.mk [] "doc_x.py") = none
    ∧ handling_files (fun _ => "a\nb\nc") false [(⟨[], "x.py"⟩, "code")]
        [⟨[], "x.py"⟩, ⟨[], "doc_x.py"⟩]
      = .ok [(⟨[], "doc_doc_x.py"⟩, "b"), (⟨[], "doc_x.py"⟩, "b"), (⟨[], "x.py"⟩, "code")]
          ["Documentation for x.py ready", "Documentation for doc_x.py ready"]
          ["code", "b"] := by
  exact ⟨by decide, by decide⟩

/-! ## C2: the output-path rule -/

/-- C2: the output path is the parent directory of the input joined with
the filename prefixed by `doc_` when `replace` is false, and the input
path itself when `replace` is true; and the pipeline writes the stripped
model response at exactly that path. -/
theorem c2_output_path (f : FPath) (gen : String → String) (fs : FS) (content : String) :
    output_path false f = FPath.mk f.dirs ("doc_" ++ f.name)
    ∧ output_path true f = f
    ∧ (fsRead fs f.resolve = some content →
        handling_files gen false fs [f]
          = .ok (fsWrite fs (FPath.mk f.dirs ("doc_" ++ f.name)) (stripFence (gen content)))
              [readyMsg f] [content]
        ∧ handling_files gen true fs [f]
          = .ok (fsWrite fs f (stripFence (gen content))) [readyMsg f] [content]) := by
  refine ⟨rfl, rfl, fun h => ⟨?_, ?_⟩⟩
  · simp only [FPath.resolve] at h
    simp [handling_files, h, output_path, FPath.resolve, FPath.with_name]
  · simp only [FPath.resolve] at h
    simp [handling_files, h, output_path, FPath.resolve]

/-- Witness for C2 at a concrete file. -/
theorem c2_output_path_witness :
    handling_files (fun _ => "a\nb\nc") false [(⟨["home"], "a.py"⟩, "code")] [⟨["home"], "a.py"⟩]
      = .ok (fsWrite [(⟨["home"], "a.py"⟩, "code")] (FPath.mk ["home"] ("doc_" ++ "a.py"))
          (stripFence ((fun _ => "a\nb\nc") "code")))
        [readyMsg ⟨["home"], "a.py"⟩] ["code"]
    ∧ handling_files (fun _ => "a\nb\nc") true [(⟨["home"], "a.py"⟩, "code")] [⟨["home"], "a.py"⟩]
      = .ok (fsWrite [(⟨["home"], "a.py"⟩, "code")] ⟨["home"], "a.py"⟩
          (stripFence ((fun _ => "a\nb\nc") "code")))
        [readyMsg ⟨["home"], "a.py"⟩] ["code"] :=
  (c2_output_path ⟨["home"], "a.py"⟩ (fun _ => "a\nb\nc")
    [(⟨["home"], "a.py"⟩, "code")] "code").2.2 rfl

/-! ## Helper lemmas on `splitlines` and `join` -/

set_option maxHeartbeats 1000000 in
theorem splitlinesAux_no_break (cs acc : List Char)
    (hacc : ∀ c ∈ acc, isLineBreak c = false) :
    ∀ line ∈ splitlinesAux cs acc, ∀ c ∈ line.data, isLineBreak c = false := by
  induction cs, acc using splitlinesAux.induct with
  | case1 acc hempty =>
    intro line hline
    simp [splitlinesAux, hempty] at hline
  | case2 acc hempty =>
    intro line hline
    rw [splitlinesAux, if_neg hempty] at hline
    simp at hline
    subst hline
    intro c hc
    exact hacc c (List.mem_reverse.mp hc)
  | case3 cs acc ih =>
    intro line hline
    rw [splitlinesAux] at hline
    rcases List.mem_cons.mp hline with h | h
    · subst h
      intro c hc
      exact hacc c (List.mem_reverse.mp hc)
    · exact ih (by simp) line h
  | case4 c cs acc hne hbreak ih =>
    intro line hline
    rw [splitlinesAux] at hline
    · rw [if_pos hbreak] at hline
      rcases List.mem_cons.mp hline with h | h
      · subst h
        intro c2 hc2
        exact hacc c2 (List.mem_reverse.mp hc2)
      · exact ih (by simp) line h
    · exact hne
  | case5 c cs acc hne hbreak ih =>
    intro line hline
    rw [splitlinesAux] at hline
    · rw [if_neg hbreak] at hline
      refine ih ?_ line hline
      intro x hx
      rcases List.mem_cons.mp hx with h | h
      · subst h
        exact Bool.not_eq_true _ |>.mp hbreak
      · exact hacc x h
    · exact hne

/-- No character of any line produced by `splitlines` is a line
boundary. -/
theorem splitlines_no_break (text : String) :
    ∀ line ∈ splitlines text, ∀ c ∈ line.data, isLineBreak c = false :=
  splitlinesAux_no_break text.data [] (by simp)

/-- The last character of a `join` ending in a non-empty part is the last
character of that part. -/
theorem pyJoin_concat_getLast (sep : String) (l : List String) (s : String)
    (hs : s.data ≠ []) :
    (pyJoin sep (l ++ [s])).data.getLast? = s.data.getLast? := by
  obtain ⟨c, hc⟩ := Option.ne_none_iff_exists'.mp
    (fun hnone => hs (List.getLast?_eq_none_iff.mp hnone))
  induction l with
  | nil => rfl
  | cons a l ih =>
    match l with
    | [] =>
      show ((a ++ sep ++ s)).data.getLast? = s.data.getLast?
      rw [String.data_append, List.getLast?_append, hc]
      rfl
    | b :: t =>
      show ((a ++ sep ++ pyJoin sep (b :: t ++ [s]))).data.getLast? = s.data.getLast?
      rw [String.data_append, List.getLast?_append, ih, hc]
      rfl

/-! ## C1: the fence-stripping rule -/

/-- C1 (amended): for a model response of `N` lines with `N ≥ 2`, the
persisted content is exactly lines `1 .. N-2` (0-indexed, inclusive)
joined by newlines; for `N ≤ 1` (both `N = 1` and `N = 0`) the persisted
output is the empty string.  (The amendment: at `N = 0` no index error is
raised — the Python slice `[1:-1]` of an empty list is simply empty; see
the counterexample.) -/
theorem c1_strip_lines_amended (text : String) :
    (2 ≤ (splitlines text).length →
      stripFence text
        = pyJoin "\n" (((splitlines text).drop 1).take ((splitlines text).length - 2)))
    ∧ ((splitlines text).length ≤ 1 → stripFence text = "") := by
  constructor
  · intro _
    unfold stripFence pySlice1m1
    rw [List.dropLast_eq_take, List.length_drop]
    have h2 : (splitlines text).length - 1 - 1 = (splitlines text).length - 2 := by omega
    rw [h2]
  · intro h
    rcases hl : splitlines text with _ | ⟨a, _ | ⟨b, t⟩⟩
    · simp [stripFence, pySlice1m1, hl, pyJoin]
    · simp [stripFence, pySlice1m1, hl, pyJoin]
    · rw [hl] at h; simp at h

/-- Witness for C1 at a three-line response and a one-line response. -/
theorem c1_strip_lines_witness :
    stripFence "a\nb\nc"
      = pyJoin "\n" (((splitlines "a\nb\nc").drop 1).take ((splitlines "a\nb\nc").length - 2))
    ∧ stripFence "x" = "" :=
  ⟨(c1_strip_lines_amended "a\nb\nc").1 (by decide),
   (c1_strip_lines_amended "x").2 (by decide)⟩

/-- C1 counterexample: an empty (0-line) model response raises no index
error — the stripping step yields the empty string and the pipeline
completes normally, writing an empty output file. -/
theorem c1_zero_lines_counterexample :
    stripFence "" = ""
    ∧ handling_files (fun _ => "") false [(⟨[], "a.py"⟩, "print(1)")] [⟨[], "a.py"⟩]
        = .ok [(⟨[], "doc_a.py"⟩, ""), (⟨[], "a.py"⟩, "print(1)")]
            ["Documentation for a.py ready"] ["print(1)"] := by
  exact ⟨rfl, by decide⟩

/-! ## C10: trailing newlines in the persisted content -/

/-- C10 (amended): the persisted content ends in a newline character only
when the last kept line (line `N-2` of the response) is itself empty; in
particular, whenever that line is non-empty — and always when the response
merely ended with a trailing newline, which `splitlines` drops — the
output does not end with a newline.  (The amendment is forced by the
counterexample, where an empty line at position `N-2` makes the joined
output end with `"\n"`.) -/
theorem c10_no_trailing_newline_amended (text : String)
    (h : (pySlice1m1 (splitlines text)).getLast? ≠ some "") :
    (stripFence text).data.getLast? ≠ some '\n' := by
  rcases List.eq_nil_or_concat (pySlice1m1 (splitlines text)) with hnil | ⟨l, s, hcat⟩
  · unfold stripFence
    rw [hnil]
    simp [pyJoin]
  · rw [List.concat_eq_append] at hcat
    have hs_ne : s ≠ "" := by
      intro hse
      exact h (by rw [hcat, hse]; exact List.getLast?_concat l)
    have hs_data : s.data ≠ [] := by
      intro hd
      exact hs_ne (String.ext hd)
    have hmem : s ∈ splitlines text := by
      have hsub : (pySlice1m1 (splitlines text)).Sublist (splitlines text) :=
        (List.dropLast_sublist _).trans (List.drop_sublist 1 _)
      exact hsub.subset (by rw [hcat]; simp)
    obtain ⟨c, hc⟩ := Option.ne_none_iff_exists'.mp
      (fun hnone => hs_data (List.getLast?_eq_none_iff.mp hnone))
    have hcmem : c ∈ s.data := by
      obtain ⟨hne, heq⟩ :=
        List.mem_getLast?_eq_getLast (l := s.data) (x := c) (by rw [hc]; rfl)
      rw [heq]
      exact List.getLast_mem hne
    have hcnb : isLineBreak c = false := splitlines_no_break text s hmem c hcmem
    unfold stripFence
    rw [hcat, pyJoin_concat_getLast _ _ _ hs_data, hc]
    intro heq
    cases Option.some.inj heq
    simp [isLineBreak] at hcnb

/-- Witness for C10 at a three-line response whose kept line is
non-empty. -/
theorem c10_no_trailing_newline_witness :
    (pySlice1m1 (splitlines "a\nb\nc")).getLast? ≠ some ""
    ∧ (stripFence "a\nb\nc").data.getLast? ≠ some '\n' :=
  ⟨by decide, c10_no_trailing_newline_amended "a\nb\nc" (by decide)⟩

/-- C10 counterexample: for the four-line response `"a\nb\n\nc"` the kept
lines are `["b", ""]`, the written content is `"b\n"`, and it does end
with a newline character — refuting the claim as stated, as shown both on
the stripping step and on a full pipeline run. -/
theorem c10_trailing_newline_counterexample :
    stripFence "a\nb\n\nc" = "b\n"
    ∧ (stripFence "a\nb\n\nc").data.getLast? = some '\n'
    ∧ handling_files (fun _ => "a\nb\n\nc") false [(⟨[], "a.py"⟩, "x")] [⟨[], "a.py"⟩]
        = .ok [(⟨[], "doc_a.py"⟩, "b\n"), (⟨[], "a.py"⟩, "x")]
            ["Documentation for a.py ready"] ["x"] := by
  refine ⟨by decide, by decide, by decide⟩

/-! ## C9: a TOML `false` API key is indistinguishable from "not configured" -/

/-- C9: because the sentinel is the boolean `False` tested by identity, a
config file with `API.API_KEY = false` makes `load_config` return `False`
and makes `document` exit with code 1 and the not-configured message
instead of using the value as a credential. -/
theorem c9_false_api_key (t u : List (String × PyVal)) (files : List FPath)
    (replace : Bool) (gen : String → String) (fs : FS)
    (hA : lookupKey t "API" = some (.dict u))
    (hK : lookupKey u "API_KEY" = some (.bool false)) :
    load_config t = .ok (.bool false)
    ∧ document (some t) files replace gen fs = .exit 1 apiKeyMissingMsg fs [] [] := by
  have hload : load_config t = .ok (.bool false) := by
    simp [load_config, subscript, hA, hK]
  refine ⟨hload, ?_⟩
  simp [document, init_config, hload]

/-! ## C8: the two source files define the same program -/

/-- C8: the transcriptions of `main.py` and `doc_main.py` agree on every
input: `load_config`, `init_config`, `config`, `handling_files` and
`document` produce equal results (and hence equal filesystem effects) —
the two files differ only in docstrings. -/
theorem c8_files_equivalent :
    (∀ cfg : Toml, load_config cfg = DocMain.load_config cfg)
    ∧ (∀ cfg : Option Toml, init_config cfg = DocMain.init_config cfg)
    ∧ (∀ (k : String) (p : FPath) (f : Option Toml), config k p f = DocMain.config k p f)
    ∧ (∀ (gen : String → String) (replace : Bool) (fs : FS) (files : List FPath),
        handling_files gen replace fs files = DocMain.handling_files gen replace fs files)
    ∧ (∀ (cfg : Option Toml) (files : List FPath) (replace : Bool)
        (gen : String → String) (fs : FS),
        document cfg files replace gen fs = DocMain.document cfg files replace gen fs) := by
  have hinit : ∀ cfg : Option Toml, init_config cfg = DocMain.init_config cfg :=
    fun _ => rfl
  have hhandle : ∀ (gen : String → String) (replace : Bool) (fs : FS) (files : List FPath),
      handling_files gen replace fs files = DocMain.handling_files gen replace fs files := by
    intro gen replace fs files
    induction files generalizing fs with
    | nil => rfl
    | cons f rest ih =>
      simp only [handling_files, DocMain.handling_files, output_path, stripFence,
        readyMsg, missingMsg]
      cases fsRead fs f.resolve with
      | none => rfl
      | some content =>
        simp only []
        rw [ih]
  refine ⟨fun _ => rfl, hinit, fun _ _ _ => rfl, hhandle, ?_⟩
  intro cfg files replace gen fs
  simp only [document, DocMain.document, ← hinit cfg]
  cases init_config cfg with
  | ok v => exact hhandle gen replace fs files
  | exit c m => rfl
  | raised e => rfl

/-- Witness for C9 at the concrete config `API.API_KEY = false`. -/
theorem c9_false_api_key_witness :
    load_config [("API", PyVal.dict [("API_KEY", PyVal.bool false)])] = .ok (.bool false)
    ∧ document (some [("API", PyVal.dict [("API_KEY", PyVal.bool false)])])
        [⟨[], "a.py"⟩] false (fun _ => "resp") [(⟨[], "a.py"⟩, "code")]
      = .exit 1 apiKeyMissingMsg [(⟨[], "a.py"⟩, "code")] [] [] :=
  c9_false_api_key _ [("API_KEY", PyVal.bool false)] _ _ _ _ rfl rfl

end Docsai
